import Mathlib

set_option autoImplicit false

/-!
Shallow embedding of the NTP clock firmware's connectivity state machine
(`loop`, `changeState`, `handleButtons` and the per-state cases of the main
`switch`).  Timestamps are modelled as natural numbers (the monotone
millisecond counter); all the quantities involved (intervals up to 600000 ms,
attempt counters up to a few dozen, string lengths up to 16) stay far below
2^32, so unsigned 32-bit arithmetic in the source never overflows in the
ranges the theorems speak about and plain `Nat` arithmetic is faithful.
External collaborators (radio, NTP, serial provisioning, web server, tones)
are modelled as per-tick inputs; the display driver is modelled by the content
last commanded to it.
-/

namespace NtpClock

/-- The `ClockState` enum of the firmware. -/
inductive ClockState where
  | STATE_BOOT
  | STATE_IMPROV_WAIT
  | STATE_WIFI_CONNECTING
  | STATE_NTP_SYNCING
  | STATE_RUNNING
  | STATE_WIFI_LOST
  | STATE_SHOWING_IP
  | STATE_AP_MODE
deriving DecidableEq, Repr

open ClockState

/-- Content currently commanded to the MAX7219 display: the driver itself is
an external collaborator, so we only record what the core last asked it to
show.  `display.clear()` puts it to `blank`, `display.displayText t` to
`fixedText t`, `display.startScrolling t step` to `scrolling t step`,
`display.displayTime h m colon use12` to `timeDigits h m colon use12`. -/
inductive DisplayContent where
  | blank
  | fixedText (t : String)
  | scrolling (t : String) (stepMs : Nat)
  | timeDigits (h m : Nat) (colon : Bool) (use12Hour : Bool)
deriving DecidableEq, Repr

/-- The mutable globals of the firmware that the claims are about, passed
explicitly.  Initial values follow the source's initialisers. -/
structure Sys where
  currentState : ClockState
  previousState : ClockState
  stateEnteredAt : Nat
  lastTimeUpdate : Nat
  displayBrightness : Nat
  use24Hour : Bool
  improvConnected : Bool
  lastReconnectAttempt : Nat
  reconnectInterval : Nat
  reconnectAttempts : Nat
  ipScrollingStarted : Bool
  ipScrollDuration : Nat
  lastButtonPress : Nat
  lastModeState : Bool
  lastUpState : Bool
  lastDownState : Bool
  modePressStart : Nat
  modeLongPressHandled : Bool
  display : DisplayContent
  softApActive : Bool
deriving DecidableEq, Repr

/-- `MAX_RECONNECT_INTERVAL`: max 5 minutes between reconnect attempts. -/
def MAX_RECONNECT_INTERVAL : Nat := 300000

/-- `MAX_RECONNECT_BEFORE_AP`: attempts before the AP-mode fallback. -/
def MAX_RECONNECT_BEFORE_AP : Nat := 36

/-- `changeState(newState)`: early-returns when `newState == currentState`,
otherwise records previous/current state, stamps `stateEnteredAt = millis()`
and performs the state-specific entry resets. -/
def changeState (newState : ClockState) (now : Nat) (s : Sys) : Sys :=
  if newState = s.currentState then s
  else
    let s' := { s with
      previousState := s.currentState
      currentState := newState
      stateEnteredAt := now }
    match newState with
    | STATE_SHOWING_IP => { s' with ipScrollingStarted := false }
    | STATE_WIFI_LOST => { s' with
        reconnectAttempts := 0
        reconnectInterval := 5000
        lastReconnectAttempt := 0 }
    | STATE_AP_MODE => { s' with ipScrollingStarted := false }
    | _ => s'

/-- Events emitted by `handleButtons` during one tick (beeps and serial logs
are external side effects and not recorded). -/
structure Ev where
  forceReconnect : Bool := false
  reconnectIssued : Bool := false
  longPressFired : Bool := false
  shortPressToggle : Bool := false
  scrollMs : Nat := 0
deriving DecidableEq, Repr

/-- Scroll duration used both by the `STATE_SHOWING_IP` entry code and the
Mode long-press handler: `stepsPerCycle = (len > 4) ? (len - 3) : 1`, then
`stepsPerCycle * 350 * 2` for two cycles at 350 ms per step. -/
def scrollDuration (len : Nat) : Nat :=
  (if len > 4 then len - 3 else 1) * 350 * 2

/-- `sprintf("r%3d", min(reconnectAttempts, 999))`: the reconnect-attempt
counter text shown while in `STATE_WIFI_LOST`. -/
def attemptStr (n : Nat) : String :=
  let m := min n 999
  ("r") ++ (if m < 10 then ("  ") else if m < 100 then (" ") else ("")) ++ toString m

/-- `handleButtons()`: the Up+Down force-reconnect combo (with early return),
the Mode short/long press with its long-press latch, and the Up/Down
brightness buttons.  Buttons are the debounced levels read this tick
(`digitalRead(...) == LOW`). -/
def handleButtons (btnMode btnUp btnDown : Bool) (now : Nat) (wifiConnected : Bool)
    (ipStr apSsid : String) (s : Sys) : Sys × Ev :=
  -- UP + DOWN together: force WiFi reconnect, then return (suppressing the
  -- individual button handling for this tick)
  if btnUp ∧ btnDown ∧ now - s.lastButtonPress > 500 then
    let r :=
      if s.currentState = STATE_RUNNING ∨ s.currentState = STATE_WIFI_LOST then
        let s' := changeState STATE_WIFI_LOST now s
        ({ s' with reconnectAttempts := 0, reconnectInterval := 5000,
                   lastReconnectAttempt := 0 }, true)
      else (s, false)
    ({ r.1 with lastButtonPress := now },
     { forceReconnect := true, reconnectIssued := r.2 })
  else
    -- MODE button: short press = 12/24h toggle, long press (2 s) = show address
    let r2 : Sys × Ev :=
      if btnMode then
        if ¬ s.lastModeState then
          -- button just pressed: arm the long-press timer, clear the latch
          ({ s with modePressStart := now, modeLongPressHandled := false }, {})
        else if ¬ s.modeLongPressHandled ∧ now - s.modePressStart ≥ 2000 then
          -- long press detected: set the latch, run the (bounded, blocking)
          -- address scroll appropriate to the current state
          let s' := { s with modeLongPressHandled := true }
          if s.currentState = STATE_RUNNING ∧ wifiConnected then
            -- scroll the station address for 2 cycles, then clear the display
            ({ s' with display := DisplayContent.blank, lastTimeUpdate := 0,
                       lastButtonPress := now },
             { longPressFired := true, scrollMs := scrollDuration ipStr.length })
          else if s.currentState = STATE_AP_MODE then
            -- scroll the portal SSID, then let the AP loop restart the IP scroll
            ({ s' with display := DisplayContent.scrolling apSsid 350,
                       ipScrollingStarted := false, lastButtonPress := now },
             { longPressFired := true, scrollMs := scrollDuration apSsid.length })
          else
            ({ s' with lastButtonPress := now }, { longPressFired := true })
        else (s, {})
      else if s.lastModeState ∧ ¬ s.modeLongPressHandled then
        -- released without long press: short-press action (toggle hour format)
        if now - s.lastButtonPress > 200 then
          ({ s with use24Hour := ¬ s.use24Hour, lastButtonPress := now,
                    lastTimeUpdate := 0 }, { shortPressToggle := true })
        else (s, {})
      else (s, {})
    let s3 : Sys := { r2.1 with lastModeState := btnMode }
    -- UP button: increase brightness
    let s4 : Sys :=
      if btnUp ∧ ¬ btnDown ∧ ¬ s3.lastUpState ∧ now - s3.lastButtonPress > 200 then
        let s' := if s3.displayBrightness < 15
                  then { s3 with displayBrightness := s3.displayBrightness + 1 }
                  else s3
        { s' with lastButtonPress := now }
      else s3
    let s5 : Sys := { s4 with lastUpState := btnUp }
    -- DOWN button: decrease brightness
    let s6 : Sys :=
      if btnDown ∧ ¬ btnUp ∧ ¬ s5.lastDownState ∧ now - s5.lastButtonPress > 200 then
        let s' := if s5.displayBrightness > 0
                  then { s5 with displayBrightness := s5.displayBrightness - 1 }
                  else s5
        { s' with lastButtonPress := now }
      else s5
    ({ s6 with lastDownState := btnDown }, r2.2)

/-- The Improv preemption check at the top of `loop()`: a successful
provisioning connection (`improvConnected` with the radio associated) moves
every state except `STATE_NTP_SYNCING`, `STATE_SHOWING_IP` and
`STATE_RUNNING` to `STATE_NTP_SYNCING`, tearing the soft-AP down first when
coming from `STATE_AP_MODE`. -/
def improvCheck (wifiConnected : Bool) (now : Nat) (s : Sys) : Sys :=
  if s.improvConnected ∧ wifiConnected
     ∧ s.currentState ≠ STATE_NTP_SYNCING
     ∧ s.currentState ≠ STATE_SHOWING_IP
     ∧ s.currentState ≠ STATE_RUNNING then
    let s1 := if s.currentState = STATE_AP_MODE
              then { s with softApActive := false }
              else s
    changeState STATE_NTP_SYNCING now s1
  else s

/-- `STATE_BOOT` case: show the version for 3 s, then clear and move on. -/
def bootTick (stateElapsed now : Nat) (s : Sys) : Sys :=
  if stateElapsed ≥ 3000 then
    changeState STATE_IMPROV_WAIT now { s with display := DisplayContent.blank }
  else s

/-- `STATE_IMPROV_WAIT` case: waiting placeholder for the first 500 ms; leave
on association; after 10 s fall through to saved credentials or the portal. -/
def improvWaitTick (wifiConnected savedSsidExists : Bool)
    (stateElapsed now : Nat) (s : Sys) : Sys :=
  let s1 := if stateElapsed < 500
            then { s with display := DisplayContent.fixedText ("----") }
            else s
  if wifiConnected then changeState STATE_NTP_SYNCING now s1
  else if stateElapsed ≥ 10000 then
    if savedSsidExists then
      -- startWifiReconnect() is issued right after this transition
      changeState STATE_WIFI_CONNECTING now
        { s1 with display := DisplayContent.fixedText ("Conn") }
    else changeState STATE_AP_MODE now s1
  else s1

/-- `STATE_WIFI_CONNECTING` case: 20 s to associate, else AP fallback. -/
def wifiConnectingTick (wifiConnected : Bool) (stateElapsed now : Nat) (s : Sys) : Sys :=
  if wifiConnected then changeState STATE_NTP_SYNCING now s
  else if stateElapsed ≥ 20000 then changeState STATE_AP_MODE now s
  else s

/-- `STATE_NTP_SYNCING` case: bounded sync attempts, then show the address
either way (`ntpOk` is the externally observed result of `attemptNtpSync`). -/
def ntpSyncingTick (ntpOk : Bool) (stateElapsed now : Nat) (s : Sys) : Sys :=
  let s1 := { s with display := DisplayContent.fixedText ("Sync") }
  if ntpOk then changeState STATE_SHOWING_IP now s1
  else if stateElapsed ≥ 10000 then changeState STATE_SHOWING_IP now s1
  else s1

/-- `STATE_SHOWING_IP` case: on the first tick start the scroll and fix its
duration; leave for `STATE_RUNNING` once that duration has elapsed. -/
def showingIpTick (ipStr : String) (stateElapsed now : Nat) (s : Sys) : Sys :=
  let s1 :=
    if ¬ s.ipScrollingStarted then
      { s with display := DisplayContent.scrolling ipStr 350,
               ipScrollingStarted := true,
               ipScrollDuration := scrollDuration ipStr.length }
    else s
  if stateElapsed ≥ s1.ipScrollDuration then
    changeState STATE_RUNNING now { s1 with display := DisplayContent.blank }
  else s1

/-- `STATE_RUNNING` case: fall to `STATE_WIFI_LOST` on radio loss, else
refresh the displayed time every second (`timeAvail`, `h`, `m`, `sec` are the
externally observed result of `getLocalTime`). -/
def runningTick (wifiConnected timeAvail : Bool) (h m sec : Nat)
    (now : Nat) (s : Sys) : Sys :=
  if ¬ wifiConnected then
    changeState STATE_WIFI_LOST now { s with display := DisplayContent.fixedText ("rCon") }
  else if now - s.lastTimeUpdate ≥ 1000 then
    let s1 := { s with lastTimeUpdate := now }
    if timeAvail then
      { s1 with display := DisplayContent.timeDigits h m (sec % 2 = 0) (¬ s.use24Hour) }
    else
      { s1 with display := DisplayContent.fixedText ("Sync") }
  else s

/-- `STATE_WIFI_LOST` case: back to `STATE_RUNNING` on reassociation, else
issue reconnect attempts under exponential backoff and fall back to the AP
after `MAX_RECONNECT_BEFORE_AP` attempts.  The `Bool` reports whether
`startWifiReconnect()` was issued this tick. -/
def wifiLostTick (wifiConnected : Bool) (now : Nat) (s : Sys) : Sys × Bool :=
  if wifiConnected then
    -- reconnected: beep, re-sync NTP (external), back to normal operation
    (changeState STATE_RUNNING now s, false)
  else
    let r :=
      if now - s.lastReconnectAttempt ≥ s.reconnectInterval then
        let s' := { s with lastReconnectAttempt := now,
                           reconnectAttempts := s.reconnectAttempts + 1 }
        let txt := DisplayContent.fixedText (attemptStr s'.reconnectAttempts)
        let cappedNext := min (s'.reconnectInterval * 2) MAX_RECONNECT_INTERVAL
        -- startWifiReconnect() issued, then exponential backoff
        ({ s' with display := txt, reconnectInterval := cappedNext }, true)
      else (s, false)
    if r.1.reconnectAttempts ≥ MAX_RECONNECT_BEFORE_AP then
      (changeState STATE_AP_MODE now r.1, r.2)
    else r

/-- `STATE_AP_MODE` case: one-time soft-AP start on entry, leave for NTP sync
once the station side associates, else keep the portal address scrolling. -/
def apModeTick (wifiConnected : Bool) (apIpStr : String) (now : Nat) (s : Sys) : Sys :=
  let s1 := if s.previousState ≠ STATE_AP_MODE
            then { s with softApActive := true, previousState := STATE_AP_MODE }
            else s
  if wifiConnected then
    changeState STATE_NTP_SYNCING now { s1 with softApActive := false }
  else if ¬ s1.ipScrollingStarted then
    { s1 with display := DisplayContent.scrolling apIpStr 350,
              ipScrollingStarted := true }
  else s1

/-- External observations consumed by one iteration of `loop()`. -/
structure Inputs where
  now : Nat
  wifiConnected : Bool
  btnMode : Bool
  btnUp : Bool
  btnDown : Bool
  savedSsidExists : Bool
  ntpOk : Bool
  timeAvail : Bool
  hour : Nat
  minute : Nat
  second : Nat
  ipStr : String
  apIpStr : String
  apSsid : String
deriving DecidableEq, Repr

/-- One iteration of `loop()`: `stateElapsed` is captured before anything can
transition, then the Improv preemption check, the button handler and the
state-machine `switch` run in that order. -/
def loopTick (i : Inputs) (s : Sys) : Sys × Ev :=
  let stateElapsed := i.now - s.stateEnteredAt
  let s1 := improvCheck i.wifiConnected i.now s
  let r := handleButtons i.btnMode i.btnUp i.btnDown i.now i.wifiConnected
             i.ipStr i.apSsid s1
  let s2 := r.1
  match s2.currentState with
  | STATE_BOOT => (bootTick stateElapsed i.now s2, r.2)
  | STATE_IMPROV_WAIT =>
      (improvWaitTick i.wifiConnected i.savedSsidExists stateElapsed i.now s2, r.2)
  | STATE_WIFI_CONNECTING =>
      (wifiConnectingTick i.wifiConnected stateElapsed i.now s2, r.2)
  | STATE_NTP_SYNCING => (ntpSyncingTick i.ntpOk stateElapsed i.now s2, r.2)
  | STATE_SHOWING_IP => (showingIpTick i.ipStr stateElapsed i.now s2, r.2)
  | STATE_RUNNING =>
      (runningTick i.wifiConnected i.timeAvail i.hour i.minute i.second i.now s2, r.2)
  | STATE_WIFI_LOST =>
      let w := wifiLostTick i.wifiConnected i.now s2
      (w.1, { r.2 with reconnectIssued := r.2.reconnectIssued || w.2 })
  | STATE_AP_MODE => (apModeTick i.wifiConnected i.apIpStr i.now s2, r.2)

/-- The reconnect interval after `n` backoff updates, starting from the
initial 5000 ms: each update is `interval = min(interval * 2, MAX)`. -/
def backoffIter : Nat → Nat
  | 0 => 5000
  | n + 1 => min (backoffIter n * 2) MAX_RECONNECT_INTERVAL

/-- A concrete snapshot of the globals (a steady `STATE_RUNNING` session),
used to instantiate theorems on concrete inputs. -/
def baseSys : Sys where
  currentState := STATE_RUNNING
  previousState := STATE_SHOWING_IP
  stateEnteredAt := 40000
  lastTimeUpdate := 41000
  displayBrightness := 8
  use24Hour := true
  improvConnected := false
  lastReconnectAttempt := 0
  reconnectInterval := 5000
  reconnectAttempts := 0
  ipScrollingStarted := true
  ipScrollDuration := 5600
  lastButtonPress := 0
  lastModeState := false
  lastUpState := false
  lastDownState := false
  modePressStart := 0
  modeLongPressHandled := false
  display := DisplayContent.blank
  softApActive := false

/-- A concrete fresh `STATE_WIFI_LOST` snapshot (right after entry). -/
def wifiLostSample : Sys :=
  { baseSys with currentState := STATE_WIFI_LOST, previousState := STATE_RUNNING }

/-- A concrete `STATE_WIFI_LOST` snapshot with the attempt budget exhausted. -/
def saturatedSample : Sys :=
  { baseSys with currentState := STATE_WIFI_LOST, previousState := STATE_RUNNING,
                 reconnectAttempts := 36, reconnectInterval := 300000,
                 lastReconnectAttempt := 300000 }

/-- A concrete `STATE_AP_MODE` snapshot with a provisioning connect pending. -/
def apSample : Sys :=
  { baseSys with currentState := STATE_AP_MODE, previousState := STATE_WIFI_LOST,
                 improvConnected := true, softApActive := true,
                 ipScrollingStarted := false }

/-- A concrete `STATE_IMPROV_WAIT` snapshot just after entry from boot. -/
def improvWaitSample : Sys :=
  { baseSys with currentState := STATE_IMPROV_WAIT, previousState := STATE_BOOT,
                 stateEnteredAt := 3000, ipScrollingStarted := false }

/-- A concrete snapshot with the Mode button already observed held. -/
def heldSample : Sys :=
  { baseSys with lastModeState := true, modePressStart := 40000 }

/-- A concrete `STATE_SHOWING_IP` snapshot with the scroll already started. -/
def showSample : Sys :=
  { baseSys with currentState := STATE_SHOWING_IP, previousState := STATE_NTP_SYNCING }

/-- Number of long-press firings over a run of consecutive ticks, with the
Mode button held throughout (Up and Down released). -/
def modeHeldRun (wifiConnected : Bool) (ipStr apSsid : String) :
    Sys → List Nat → Nat
  | _, [] => 0
  | s, t :: ts =>
      let r := handleButtons true false false t wifiConnected ipStr apSsid s
      (if r.2.longPressFired then 1 else 0)
        + modeHeldRun wifiConnected ipStr apSsid r.1 ts

end NtpClock

namespace NtpClock

open ClockState

/-- `changeState` always lands in the requested state. -/
theorem changeState_currentState (newState : ClockState) (now : Nat) (s : Sys) :
    (changeState newState now s).currentState = newState := by
  simp only [changeState]
  split
  · next h => exact h.symm
  · cases newState <;> rfl

/-- Entering `STATE_AP_MODE` does not touch the reconnect policy fields. -/
theorem changeState_apMode_policy (now : Nat) (t : Sys) :
    (changeState STATE_AP_MODE now t).reconnectInterval = t.reconnectInterval
    ∧ (changeState STATE_AP_MODE now t).reconnectAttempts = t.reconnectAttempts := by
  simp only [changeState]
  split
  · exact ⟨rfl, rfl⟩
  · exact ⟨rfl, rfl⟩

/-- `changeState` never touches the configuration, the button runtime, the
soft-AP flag or the fixed scroll duration, whatever the target state. -/
theorem changeState_preserves (ns : ClockState) (now : Nat) (t : Sys) :
    (changeState ns now t).displayBrightness = t.displayBrightness
    ∧ (changeState ns now t).use24Hour = t.use24Hour
    ∧ (changeState ns now t).lastUpState = t.lastUpState
    ∧ (changeState ns now t).lastDownState = t.lastDownState
    ∧ (changeState ns now t).lastModeState = t.lastModeState
    ∧ (changeState ns now t).modeLongPressHandled = t.modeLongPressHandled
    ∧ (changeState ns now t).softApActive = t.softApActive
    ∧ (changeState ns now t).ipScrollDuration = t.ipScrollDuration := by
  simp only [changeState]
  split
  · exact ⟨rfl, rfl, rfl, rfl, rfl, rfl, rfl, rfl⟩
  · cases ns <;> exact ⟨rfl, rfl, rfl, rfl, rfl, rfl, rfl, rfl⟩

/-- The `STATE_WIFI_LOST` entry action, spelled out field by field. -/
theorem changeState_wifiLost_fields (now : Nat) (t : Sys)
    (hne : t.currentState ≠ STATE_WIFI_LOST) :
    (changeState STATE_WIFI_LOST now t).reconnectAttempts = 0
    ∧ (changeState STATE_WIFI_LOST now t).reconnectInterval = 5000
    ∧ (changeState STATE_WIFI_LOST now t).lastReconnectAttempt = 0
    ∧ (changeState STATE_WIFI_LOST now t).currentState = STATE_WIFI_LOST
    ∧ (changeState STATE_WIFI_LOST now t).previousState = t.currentState
    ∧ (changeState STATE_WIFI_LOST now t).stateEnteredAt = now := by
  have hne' : STATE_WIFI_LOST ≠ t.currentState := fun h => hne h.symm
  simp [changeState, hne']

/-- A `STATE_WIFI_LOST` tick whose backoff deadline has arrived issues an
attempt: counter incremented, timestamp stamped, interval doubled (capped). -/
theorem wifiLostTick_fire (now : Nat) (t : Sys)
    (hfire : now - t.lastReconnectAttempt ≥ t.reconnectInterval)
    (hlt : t.reconnectAttempts + 1 < 36) :
    (wifiLostTick false now t).2 = true
    ∧ (wifiLostTick false now t).1.reconnectAttempts = t.reconnectAttempts + 1
    ∧ (wifiLostTick false now t).1.lastReconnectAttempt = now
    ∧ (wifiLostTick false now t).1.reconnectInterval = min (t.reconnectInterval * 2) 300000
    ∧ (wifiLostTick false now t).1.currentState = t.currentState := by
  have h36 : ¬ (t.reconnectAttempts + 1 ≥ 36) := by omega
  simp only [wifiLostTick, Bool.false_eq_true, if_false, MAX_RECONNECT_BEFORE_AP]
  rw [if_pos hfire]
  dsimp only
  rw [if_neg h36]
  exact ⟨rfl, rfl, rfl, rfl, rfl⟩

/-- A `STATE_WIFI_LOST` tick before the backoff deadline (and below the
portal-fallback bound) is a pure no-op. -/
theorem wifiLostTick_nofire (now : Nat) (t : Sys)
    (hmiss : ¬ now - t.lastReconnectAttempt ≥ t.reconnectInterval)
    (hlt : t.reconnectAttempts < 36) :
    wifiLostTick false now t = (t, false) := by
  have h36 : ¬ (t.reconnectAttempts ≥ 36) := by omega
  simp only [wifiLostTick, Bool.false_eq_true, if_false, MAX_RECONNECT_BEFORE_AP]
  rw [if_neg hmiss]
  dsimp only
  rw [if_neg h36]

/-- C1: requesting a transition to the already-current state is a no-op:
the whole system state — `currentState`, `previousState`, `stateEnteredAt`
and every state-specific variable — is returned unchanged, so no entry
action fires. -/
theorem changeState_self_noop (s : Sys) (now : Nat) :
    changeState s.currentState now s = s := by
  simp [changeState]

/-- C2: whenever a reconnect attempt is issued in `STATE_WIFI_LOST` the
interval is updated to `min(interval * 2, 300000)`; iterating that update
from the initial 5000 ms yields 5000, 10000, 20000, 40000, 80000, 160000,
300000, 300000, …, and the interval never exceeds 300000 ms. -/
theorem wifiLost_backoff_schedule (s : Sys) (now : Nat)
    (hfire : now - s.lastReconnectAttempt ≥ s.reconnectInterval) :
    (wifiLostTick false now s).1.reconnectInterval
        = min (s.reconnectInterval * 2) 300000
    ∧ (List.range 8).map backoffIter
        = [5000, 10000, 20000, 40000, 80000, 160000, 300000, 300000]
    ∧ ∀ n, backoffIter n ≤ 300000 := by
  refine ⟨?_, by decide, ?_⟩
  · simp only [wifiLostTick, Bool.false_eq_true, if_false, MAX_RECONNECT_BEFORE_AP]
    rw [if_pos hfire]
    dsimp only
    by_cases h36 : s.reconnectAttempts + 1 ≥ 36
    · rw [if_pos h36]
      rw [(changeState_apMode_policy now _).1]
      rfl
    · rw [if_neg h36]
      rfl
  · intro n
    cases n with
    | zero => decide
    | succ n =>
        have h : backoffIter (n + 1) = min (backoffIter n * 2) 300000 := rfl
        rw [h]
        exact Nat.min_le_right _ _

/-- C3: a `STATE_WIFI_LOST` tick with the radio still down leaves the machine
in `STATE_AP_MODE` whenever the attempt counter has reached
`MAX_RECONNECT_BEFORE_AP = 36`; consequently the machine never remains in
`STATE_WIFI_LOST` with 36 or more recorded attempts after such a tick. -/
theorem wifiLost_forces_portal_at_36 (s : Sys) (now : Nat) :
    ((wifiLostTick false now s).1.reconnectAttempts ≥ 36 →
        (wifiLostTick false now s).1.currentState = STATE_AP_MODE)
    ∧ ((wifiLostTick false now s).1.currentState = STATE_WIFI_LOST →
        (wifiLostTick false now s).1.reconnectAttempts < 36) := by
  simp only [wifiLostTick, Bool.false_eq_true, if_false, MAX_RECONNECT_BEFORE_AP]
  by_cases hfire : now - s.lastReconnectAttempt ≥ s.reconnectInterval
  · rw [if_pos hfire]
    dsimp only
    by_cases h36 : s.reconnectAttempts + 1 ≥ 36
    · rw [if_pos h36]
      refine ⟨fun _ => changeState_currentState _ _ _, fun hstay => ?_⟩
      rw [changeState_currentState] at hstay
      exact absurd hstay (by decide)
    · rw [if_neg h36]
      dsimp only
      exact ⟨fun hge => absurd hge h36, fun _ => by omega⟩
  · rw [if_neg hfire]
    dsimp only
    by_cases h36 : s.reconnectAttempts ≥ 36
    · rw [if_pos h36]
      refine ⟨fun _ => changeState_currentState _ _ _, fun hstay => ?_⟩
      rw [changeState_currentState] at hstay
      exact absurd hstay (by decide)
    · rw [if_neg h36]
      dsimp only
      exact ⟨fun hge => absurd hge h36, fun _ => by omega⟩

/-- C4: every transition into `STATE_WIFI_LOST` from a different state resets
the reconnect policy on entry — attempts to 0, interval to 5000 ms and the
last-attempt timestamp to its initial value 0 — and in particular the
`STATE_RUNNING` case does so the moment the radio drops. -/
theorem wifiLost_entry_resets_policy (s : Sys) (now : Nat)
    (hne : s.currentState ≠ STATE_WIFI_LOST) :
    (changeState STATE_WIFI_LOST now s).reconnectAttempts = 0
    ∧ (changeState STATE_WIFI_LOST now s).reconnectInterval = 5000
    ∧ (changeState STATE_WIFI_LOST now s).lastReconnectAttempt = 0
    ∧ (changeState STATE_WIFI_LOST now s).currentState = STATE_WIFI_LOST
    ∧ (changeState STATE_WIFI_LOST now s).previousState = s.currentState
    ∧ (changeState STATE_WIFI_LOST now s).stateEnteredAt = now
    ∧ (s.currentState = STATE_RUNNING → ∀ (timeAvail : Bool) (h m sec : Nat),
        (runningTick false timeAvail h m sec now s).reconnectAttempts = 0
        ∧ (runningTick false timeAvail h m sec now s).reconnectInterval = 5000
        ∧ (runningTick false timeAvail h m sec now s).lastReconnectAttempt = 0
        ∧ (runningTick false timeAvail h m sec now s).currentState = STATE_WIFI_LOST) := by
  have hne' : STATE_WIFI_LOST ≠ s.currentState := fun h => hne h.symm
  refine ⟨?_, ?_, ?_, ?_, ?_, ?_, ?_⟩
  · simp [changeState, hne']
  · simp [changeState, hne']
  · simp [changeState, hne']
  · simp [changeState, hne']
  · simp [changeState, hne']
  · simp [changeState, hne']
  · intro hrun timeAvail h m sec
    simp [runningTick, changeState, hrun]

/-- Witness for C2 at a fresh `STATE_WIFI_LOST` snapshot and tick time 60000. -/
theorem wifiLost_backoff_schedule_witness :
    60000 - wifiLostSample.lastReconnectAttempt ≥ wifiLostSample.reconnectInterval
    ∧ (wifiLostTick false 60000 wifiLostSample).1.reconnectInterval
        = min (wifiLostSample.reconnectInterval * 2) 300000 :=
  ⟨by decide, (wifiLost_backoff_schedule wifiLostSample 60000 (by decide)).1⟩

/-- Witness for C3 at a snapshot that has just recorded its 36th attempt. -/
theorem wifiLost_forces_portal_at_36_witness :
    (wifiLostTick false 300001 saturatedSample).1.reconnectAttempts ≥ 36
    ∧ (wifiLostTick false 300001 saturatedSample).1.currentState = STATE_AP_MODE :=
  ⟨by decide, (wifiLost_forces_portal_at_36 saturatedSample 300001).1 (by decide)⟩

/-- Witness for C4: the running session drops its radio at tick 50000. -/
theorem wifiLost_entry_resets_policy_witness :
    (runningTick false true 12 34 56 50000 baseSys).reconnectAttempts = 0
    ∧ (runningTick false true 12 34 56 50000 baseSys).reconnectInterval = 5000
    ∧ (runningTick false true 12 34 56 50000 baseSys).lastReconnectAttempt = 0
    ∧ (runningTick false true 12 34 56 50000 baseSys).currentState = STATE_WIFI_LOST :=
  (wifiLost_entry_resets_policy baseSys 50000 (by decide)).2.2.2.2.2.2 rfl true 12 34 56

/-- C5: the scroll duration computed when an address scroll starts — both on
entry to `STATE_SHOWING_IP` and in the Mode long-press handler — equals
`max(1, L-3) * 350 * 2` for a length-`L` address string (so `L = 11` gives
5600 ms); once started the duration is fixed (never re-derived), and
`STATE_SHOWING_IP` moves to `STATE_RUNNING` exactly when the elapsed-in-state
time reaches that fixed duration. -/
theorem scroll_duration_exact :
    (∀ L : Nat, scrollDuration L = max 1 (L - 3) * 350 * 2)
    ∧ scrollDuration (String.length ("192.168.4.1")) = 5600
    ∧ (∀ (s : Sys) (ipStr : String) (elapsed now : Nat),
        s.ipScrollingStarted = false →
        (showingIpTick ipStr elapsed now s).ipScrollDuration
          = scrollDuration ipStr.length)
    ∧ (∀ (s : Sys) (ipStr : String) (elapsed now : Nat),
        s.currentState = STATE_SHOWING_IP → s.ipScrollingStarted = true →
        (showingIpTick ipStr elapsed now s).ipScrollDuration = s.ipScrollDuration
        ∧ ((showingIpTick ipStr elapsed now s).currentState = STATE_RUNNING
            ↔ elapsed ≥ s.ipScrollDuration))
    ∧ (∀ (s : Sys) (ipStr apSsid : String) (now : Nat),
        s.currentState = STATE_RUNNING → s.lastModeState = true →
        s.modeLongPressHandled = false → now - s.modePressStart ≥ 2000 →
        (handleButtons true false false now true ipStr apSsid s).2.scrollMs
          = scrollDuration ipStr.length) := by
  refine ⟨?_, by decide, ?_, ?_, ?_⟩
  · intro L
    have h : (if L > 4 then L - 3 else 1) = max 1 (L - 3) := by
      split <;> omega
    simp [scrollDuration, h]
  · intro s ipStr elapsed now hstart
    simp only [showingIpTick, hstart, Bool.false_eq_true, not_false_eq_true, if_true]
    by_cases hd : elapsed ≥ scrollDuration ipStr.length
    · rw [if_pos hd, (changeState_preserves _ _ _).2.2.2.2.2.2.2]
    · rw [if_neg hd]
  · intro s ipStr elapsed now hst hstart
    constructor
    · simp only [showingIpTick, hstart, not_true, if_false]
      by_cases hd : elapsed ≥ s.ipScrollDuration
      · rw [if_pos hd, (changeState_preserves _ _ _).2.2.2.2.2.2.2]
      · rw [if_neg hd]
    · simp only [showingIpTick, hstart, not_true, if_false]
      by_cases hd : elapsed ≥ s.ipScrollDuration
      · rw [if_pos hd]
        simp [changeState_currentState, hd]
      · rw [if_neg hd]
        simp [hst, hd]
  · intro s ipStr apSsid now hrun hlm hlatch htime
    simp [handleButtons, hrun, hlm, hlatch, htime]

/-- Witness for C5: the 11-character address string `"192.168.4.1"`, the
scroll finishing at exactly 5600 ms in state, and a concrete long press. -/
theorem scroll_duration_exact_witness :
    scrollDuration 11 = max 1 (11 - 3) * 350 * 2
    ∧ (showingIpTick ("192.168.4.1") 5600 45600 showSample).currentState = STATE_RUNNING
    ∧ (handleButtons true false false 50000 true ("192.168.4.1") ("NTP_AP") heldSample).2.scrollMs
        = scrollDuration (String.length ("192.168.4.1")) :=
  ⟨scroll_duration_exact.1 11,
   ((scroll_duration_exact.2.2.2.1 showSample ("192.168.4.1") 5600 45600 rfl rfl).2).mpr
     (by decide),
   scroll_duration_exact.2.2.2.2 heldSample ("192.168.4.1") ("NTP_AP") 50000 rfl rfl rfl
     (by decide)⟩

/-- C6: a successful provisioning connection (improv flag set with the radio
associated) preempts every state except `STATE_NTP_SYNCING`,
`STATE_SHOWING_IP` and `STATE_RUNNING`, landing in `STATE_NTP_SYNCING`; when
it fires from `STATE_AP_MODE` the soft-AP is torn down; and in the three
excluded states the check leaves the state untouched. -/
theorem improv_preemption (wifi : Bool) (now : Nat) (s : Sys) :
    (s.currentState = STATE_NTP_SYNCING ∨ s.currentState = STATE_SHOWING_IP
        ∨ s.currentState = STATE_RUNNING →
      improvCheck wifi now s = s)
    ∧ (s.improvConnected = true → wifi = true →
        s.currentState ≠ STATE_NTP_SYNCING → s.currentState ≠ STATE_SHOWING_IP →
        s.currentState ≠ STATE_RUNNING →
        (improvCheck wifi now s).currentState = STATE_NTP_SYNCING
        ∧ (s.currentState = STATE_AP_MODE →
            (improvCheck wifi now s).softApActive = false)) := by
  constructor
  · intro h
    rcases h with h | h | h <;> simp [improvCheck, h]
  · intro himp hwifi h1 h2 h3
    have hc : (s.improvConnected = true) ∧ (wifi = true)
        ∧ s.currentState ≠ STATE_NTP_SYNCING ∧ s.currentState ≠ STATE_SHOWING_IP
        ∧ s.currentState ≠ STATE_RUNNING := ⟨himp, hwifi, h1, h2, h3⟩
    constructor
    · simp only [improvCheck]
      rw [if_pos hc]
      exact changeState_currentState _ _ _
    · intro hap
      simp only [improvCheck]
      rw [if_pos hc, if_pos hap, (changeState_preserves _ _ _).2.2.2.2.2.2.1]

/-- Witness for C6: the provisioning connect fires while the portal is up. -/
theorem improv_preemption_witness :
    (improvCheck true 99000 apSample).currentState = STATE_NTP_SYNCING
    ∧ (improvCheck true 99000 apSample).softApActive = false :=
  ⟨((improv_preemption true 99000 apSample).2 rfl rfl (by decide) (by decide) (by decide)).1,
   ((improv_preemption true 99000 apSample).2 rfl rfl (by decide) (by decide) (by decide)).2 rfl⟩

/-- A held Mode tick with the latch already set never fires and keeps both
the latch and the held observation. -/
theorem handleButtons_held_latched (wifi : Bool) (ipStr apSsid : String)
    (now : Nat) (s : Sys) (hlm : s.lastModeState = true)
    (hl : s.modeLongPressHandled = true) :
    (handleButtons true false false now wifi ipStr apSsid s).2.longPressFired = false
    ∧ (handleButtons true false false now wifi ipStr apSsid s).1.modeLongPressHandled = true
    ∧ (handleButtons true false false now wifi ipStr apSsid s).1.lastModeState = true := by
  simp [handleButtons, hlm, hl]

/-- A held Mode tick with the latch clear fires exactly when the hold has
lasted 2000 ms, and the latch afterwards records whether it fired. -/
theorem handleButtons_held_unlatched (wifi : Bool) (ipStr apSsid : String)
    (now : Nat) (s : Sys) (hlm : s.lastModeState = true)
    (hl : s.modeLongPressHandled = false) :
    ((handleButtons true false false now wifi ipStr apSsid s).2.longPressFired = true
        ↔ now - s.modePressStart ≥ 2000)
    ∧ (handleButtons true false false now wifi ipStr apSsid s).1.lastModeState = true
    ∧ (handleButtons true false false now wifi ipStr apSsid s).1.modeLongPressHandled
        = (handleButtons true false false now wifi ipStr apSsid s).2.longPressFired := by
  by_cases ht : now - s.modePressStart ≥ 2000
  · by_cases hr : s.currentState = STATE_RUNNING ∧ wifi = true
    · simp [handleButtons, hlm, hl, ht, hr]
    · by_cases hap : s.currentState = STATE_AP_MODE
      · simp [handleButtons, hlm, hl, ht, hr, hap]
      · simp [handleButtons, hlm, hl, ht, hr, hap]
  · simp [handleButtons, hlm, hl, ht]

/-- A press-edge tick (button held now, not held at the previous observation)
re-arms the long-press timer without firing. -/
theorem handleButtons_press_edge (wifi : Bool) (ipStr apSsid : String)
    (now : Nat) (s : Sys) (hlm : s.lastModeState = false) :
    (handleButtons true false false now wifi ipStr apSsid s).2.longPressFired = false
    ∧ (handleButtons true false false now wifi ipStr apSsid s).1.lastModeState = true
    ∧ (handleButtons true false false now wifi ipStr apSsid s).1.modeLongPressHandled = false := by
  simp [handleButtons, hlm]

/-- Over a run of held Mode ticks the number of long-press firings is bounded
by the latch state at the start of the run. -/
theorem modeHeldRun_le (wifi : Bool) (ipStr apSsid : String) (ts : List Nat) :
    ∀ (s : Sys), s.lastModeState = true →
      modeHeldRun wifi ipStr apSsid s ts ≤ (if s.modeLongPressHandled then 0 else 1) := by
  induction ts with
  | nil =>
      intro s _
      simp [modeHeldRun]
  | cons t ts ih =>
      intro s hlm
      by_cases hl : s.modeLongPressHandled = true
      · have h := handleButtons_held_latched wifi ipStr apSsid t s hlm hl
        have ihs := ih _ h.2.2
        simp [h.2.1] at ihs
        simp [modeHeldRun, h.1, hl]
        omega
      · have hl' : s.modeLongPressHandled = false := by
          cases hsm : s.modeLongPressHandled
          · rfl
          · exact absurd hsm hl
        have h := handleButtons_held_unlatched wifi ipStr apSsid t s hlm hl'
        have ihs := ih _ h.2.1
        rw [h.2.2] at ihs
        by_cases hf : (handleButtons true false false t wifi ipStr apSsid s).2.longPressFired
            = true
        · simp [hf] at ihs
          simp [modeHeldRun, hf, hl']
          omega
        · have hf' : (handleButtons true false false t wifi ipStr apSsid s).2.longPressFired
              = false := by
            cases hx : (handleButtons true false false t wifi ipStr apSsid s).2.longPressFired
            · rfl
            · exact absurd hx hf
          simp [hf'] at ihs
          simp [modeHeldRun, hf', hl']
          omega

/-- C7: the Mode long-press latch fires at most once per continuous hold:
a held run that begins with the button newly pressed fires at most once, and
once the latch is set a continuing held run never fires again — only a
release tick (outside the held run) can re-arm it. -/
theorem mode_long_press_once (wifi : Bool) (ipStr apSsid : String)
    (s : Sys) (ts : List Nat) :
    (s.lastModeState = false → modeHeldRun wifi ipStr apSsid s ts ≤ 1)
    ∧ (s.lastModeState = true → s.modeLongPressHandled = true →
        modeHeldRun wifi ipStr apSsid s ts = 0) := by
  constructor
  · intro hlm
    cases ts with
    | nil => simp [modeHeldRun]
    | cons t ts =>
        have h := handleButtons_press_edge wifi ipStr apSsid t s hlm
        have hb := modeHeldRun_le wifi ipStr apSsid ts _ h.2.1
        simp [h.2.2] at hb
        simp [modeHeldRun, h.1]
        omega
  · intro hlm hl
    have hb := modeHeldRun_le wifi ipStr apSsid ts s hlm
    simp [hl] at hb
    omega

/-- Witness for C7: a four-tick hold firing once at the 2-second mark, and a
latched hold that never fires. -/
theorem mode_long_press_once_witness :
    modeHeldRun true ("192.168.4.1") ("NTP_AP") baseSys [41000, 42000, 43500, 50000] ≤ 1
    ∧ modeHeldRun true ("192.168.4.1") ("NTP_AP")
        { heldSample with modeLongPressHandled := true } [50000, 60000] = 0 :=
  ⟨(mode_long_press_once true ("192.168.4.1") ("NTP_AP") baseSys
      [41000, 42000, 43500, 50000]).1 rfl,
   (mode_long_press_once true ("192.168.4.1") ("NTP_AP")
      { heldSample with modeLongPressHandled := true } [50000, 60000]).2 rfl rfl⟩

/-- C8 as stated fails at the 500 ms boundary: with Up and Down both held and
exactly 500 ms since the last accepted action (so "≥ 500 ms have passed"),
the combo guard `now - lastButtonPress > 500` in `handleButtons` is false and
no ForceReconnect is emitted or handled. -/
theorem forceReconnect_boundary_cex :
    500 - baseSys.lastButtonPress ≥ 500
    ∧ baseSys.currentState = STATE_RUNNING
    ∧ (handleButtons false true true 500 true ("192.168.4.1") ("NTP_AP") baseSys).2.forceReconnect
        = false
    ∧ (handleButtons false true true 500 true ("192.168.4.1") ("NTP_AP") baseSys).2.reconnectIssued
        = false
    ∧ (handleButtons false true true 500 true ("192.168.4.1") ("NTP_AP") baseSys).1.currentState
        = STATE_RUNNING := by
  decide

/-- With Up and Down both held and the 500 ms spacing gate strictly passed,
`handleButtons` takes the combo branch and returns early. -/
theorem handleButtons_combo_eq (btnMode wifi : Bool) (ipStr apSsid : String)
    (now : Nat) (s : Sys) (hgap : now - s.lastButtonPress > 500) :
    handleButtons btnMode true true now wifi ipStr apSsid s
      = (if s.currentState = STATE_RUNNING ∨ s.currentState = STATE_WIFI_LOST then
          ({ changeState STATE_WIFI_LOST now s with
              reconnectAttempts := 0, reconnectInterval := 5000,
              lastReconnectAttempt := 0, lastButtonPress := now },
           { forceReconnect := true, reconnectIssued := true })
        else
          ({ s with lastButtonPress := now },
           { forceReconnect := true, reconnectIssued := false })) := by
  have hc : (true = true) ∧ (true = true) ∧ now - s.lastButtonPress > 500 := ⟨rfl, rfl, hgap⟩
  unfold handleButtons
  rw [if_pos hc]
  by_cases hr : s.currentState = STATE_RUNNING ∨ s.currentState = STATE_WIFI_LOST
  · rw [if_pos hr, if_pos hr]
  · rw [if_neg hr, if_neg hr]

/-- C8 amended: the combo guard is strict — with Up and Down both held and
strictly more than 500 ms since the last accepted action, ForceReconnect is
emitted and handled synchronously in the same tick: individual Mode/Up/Down
handling is suppressed (brightness, hour format and button latches are
untouched), and when the current state is `STATE_RUNNING` (or already
`STATE_WIFI_LOST`) the reconnect policy is cleared to attempts 0, interval
5000 ms and timestamp 0, the machine is put in `STATE_WIFI_LOST`, and
`startWifiReconnect` is re-issued. -/
theorem forceReconnect_combo (btnMode wifi : Bool) (ipStr apSsid : String)
    (now : Nat) (s : Sys)
    (hgap : now - s.lastButtonPress > 500) :
    (handleButtons btnMode true true now wifi ipStr apSsid s).2.forceReconnect = true
    ∧ (handleButtons btnMode true true now wifi ipStr apSsid s).1.displayBrightness
        = s.displayBrightness
    ∧ (handleButtons btnMode true true now wifi ipStr apSsid s).1.use24Hour = s.use24Hour
    ∧ (handleButtons btnMode true true now wifi ipStr apSsid s).1.lastUpState = s.lastUpState
    ∧ (handleButtons btnMode true true now wifi ipStr apSsid s).1.lastDownState = s.lastDownState
    ∧ (handleButtons btnMode true true now wifi ipStr apSsid s).1.modeLongPressHandled
        = s.modeLongPressHandled
    ∧ (s.currentState = STATE_RUNNING ∨ s.currentState = STATE_WIFI_LOST →
        (handleButtons btnMode true true now wifi ipStr apSsid s).2.reconnectIssued = true
        ∧ (handleButtons btnMode true true now wifi ipStr apSsid s).1.currentState
            = STATE_WIFI_LOST
        ∧ (handleButtons btnMode true true now wifi ipStr apSsid s).1.reconnectAttempts = 0
        ∧ (handleButtons btnMode true true now wifi ipStr apSsid s).1.reconnectInterval = 5000
        ∧ (handleButtons btnMode true true now wifi ipStr apSsid s).1.lastReconnectAttempt
            = 0) := by
  have heq := handleButtons_combo_eq btnMode wifi ipStr apSsid now s hgap
  by_cases hr : s.currentState = STATE_RUNNING ∨ s.currentState = STATE_WIFI_LOST
  · rw [heq, if_pos hr]
    have hp := changeState_preserves STATE_WIFI_LOST now s
    have hcs := changeState_currentState STATE_WIFI_LOST now s
    exact ⟨rfl, hp.1, hp.2.1, hp.2.2.1, hp.2.2.2.1, hp.2.2.2.2.2.1,
      fun _ => ⟨rfl, hcs, rfl, rfl, rfl⟩⟩
  · rw [heq, if_neg hr]
    exact ⟨rfl, rfl, rfl, rfl, rfl, rfl, fun h => absurd h hr⟩

/-- Witness for C8 amended: the combo fires at 501 ms from a running state. -/
theorem forceReconnect_combo_witness :
    (handleButtons false true true 501 true ("192.168.4.1") ("NTP_AP") baseSys).2.forceReconnect
        = true
    ∧ (handleButtons false true true 501 true ("192.168.4.1") ("NTP_AP") baseSys).1.currentState
        = STATE_WIFI_LOST
    ∧ (handleButtons false true true 501 true ("192.168.4.1") ("NTP_AP") baseSys).1.reconnectInterval
        = 5000 :=
  ⟨(forceReconnect_combo false true ("192.168.4.1") ("NTP_AP") 501 baseSys (by decide)).1,
   ((forceReconnect_combo false true ("192.168.4.1") ("NTP_AP") 501 baseSys
       (by decide)).2.2.2.2.2.2 (Or.inl rfl)).2.1,
   ((forceReconnect_combo false true ("192.168.4.1") ("NTP_AP") 501 baseSys
       (by decide)).2.2.2.2.2.2 (Or.inl rfl)).2.2.2.1⟩

/-- C9 as stated fails after the first 500 ms: the placeholder written during
the first 500 ms is never cleared, so a later tick still inside
`STATE_IMPROV_WAIT` leaves `"----"` on the display — not blank. -/
theorem improvWait_blank_cex :
    (improvWaitTick false false 600 3600
        (improvWaitTick false false 100 3100 improvWaitSample)).currentState
      = STATE_IMPROV_WAIT
    ∧ (improvWaitTick false false 600 3600
        (improvWaitTick false false 100 3100 improvWaitSample)).display
      = DisplayContent.fixedText ("----")
    ∧ (improvWaitTick false false 600 3600
        (improvWaitTick false false 100 3100 improvWaitSample)).display
      ≠ DisplayContent.blank := by
  decide

/-- C9 amended: the placeholder is written to the display only during the
first 500 ms of `STATE_IMPROV_WAIT`; a tick at 500 ms or later with no
transition out (radio down, under the 10 s deadline) leaves the state —
display included — completely untouched, so the previously written
placeholder persists rather than the display being blanked. -/
theorem improvWait_placeholder (saved : Bool) (elapsed now : Nat) (s : Sys)
    (h500 : elapsed ≥ 500) (h10k : elapsed < 10000) :
    improvWaitTick false saved elapsed now s = s
    ∧ ∀ e : Nat, e < 500 →
        (improvWaitTick false saved e now s).display = DisplayContent.fixedText ("----")
        ∧ (improvWaitTick false saved e now s).currentState = s.currentState := by
  constructor
  · have h1 : ¬ elapsed < 500 := by omega
    have h2 : ¬ elapsed ≥ 10000 := by omega
    simp [improvWaitTick, h1, h2]
  · intro e he
    have h2 : ¬ e ≥ 10000 := by omega
    simp [improvWaitTick, he, h2]

/-- Witness for C9 amended at concrete ticks 100 ms and 600 ms into state. -/
theorem improvWait_placeholder_witness :
    improvWaitTick false false 600 3600 improvWaitSample = improvWaitSample
    ∧ (improvWaitTick false false 100 3600 improvWaitSample).display
        = DisplayContent.fixedText ("----") :=
  ⟨(improvWait_placeholder false 600 3600 improvWaitSample (by decide) (by decide)).1,
   ((improvWait_placeholder false 600 3600 improvWaitSample (by decide) (by decide)).2
      100 (by decide)).1⟩

/-- C10: entering `STATE_WIFI_LOST` resets the last-attempt timestamp to 0
rather than to the entry time, so the first tick whose millisecond counter is
at least the 5000 ms initial interval issues attempt 1 immediately; and since
the interval doubles when an attempt is issued, attempt 2 fires exactly when
10000 ms — not 5000 ms — have passed since attempt 1. -/
theorem wifiLost_first_attempt_immediate (s : Sys) (now0 t1 t2 : Nat)
    (hne : s.currentState ≠ STATE_WIFI_LOST) (h1 : t1 ≥ 5000) :
    (changeState STATE_WIFI_LOST now0 s).lastReconnectAttempt = 0
    ∧ (wifiLostTick false t1 (changeState STATE_WIFI_LOST now0 s)).2 = true
    ∧ (wifiLostTick false t1 (changeState STATE_WIFI_LOST now0 s)).1.reconnectAttempts = 1
    ∧ (wifiLostTick false t1 (changeState STATE_WIFI_LOST now0 s)).1.lastReconnectAttempt = t1
    ∧ (wifiLostTick false t1 (changeState STATE_WIFI_LOST now0 s)).1.reconnectInterval = 10000
    ∧ (t2 - t1 < 10000 →
        (wifiLostTick false t2
          (wifiLostTick false t1 (changeState STATE_WIFI_LOST now0 s)).1).2 = false)
    ∧ (t2 - t1 ≥ 10000 →
        (wifiLostTick false t2
          (wifiLostTick false t1 (changeState STATE_WIFI_LOST now0 s)).1).2 = true) := by
  obtain ⟨ha, hi, hl, hcur, hprev, hent⟩ := changeState_wifiLost_fields now0 s hne
  set s1 := changeState STATE_WIFI_LOST now0 s with hs1
  have hfire1 : t1 - s1.lastReconnectAttempt ≥ s1.reconnectInterval := by
    rw [hl, hi]; omega
  have hlt1 : s1.reconnectAttempts + 1 < 36 := by rw [ha]; omega
  obtain ⟨hf2, ha2, hl2, hi2, hcur2⟩ := wifiLostTick_fire t1 s1 hfire1 hlt1
  have hi2' : (wifiLostTick false t1 s1).1.reconnectInterval = 10000 := by
    rw [hi2, hi]; decide
  refine ⟨hl, hf2, ?_, hl2, hi2', ?_, ?_⟩
  · rw [ha2, ha]
  · intro hlt
    have hmiss : ¬ t2 - (wifiLostTick false t1 s1).1.lastReconnectAttempt
        ≥ (wifiLostTick false t1 s1).1.reconnectInterval := by
      rw [hl2, hi2']; omega
    have hat : (wifiLostTick false t1 s1).1.reconnectAttempts < 36 := by
      rw [ha2, ha]; omega
    rw [wifiLostTick_nofire t2 _ hmiss hat]
  · intro hge
    have hfire2 : t2 - (wifiLostTick false t1 s1).1.lastReconnectAttempt
        ≥ (wifiLostTick false t1 s1).1.reconnectInterval := by
      rw [hl2, hi2']; omega
    have hat : (wifiLostTick false t1 s1).1.reconnectAttempts + 1 < 36 := by
      rw [ha2, ha]; omega
    exact (wifiLostTick_fire t2 _ hfire2 hat).1

/-- Witness for C10: loss at 50000 ms, attempt 1 on the first tick, attempt 2
exactly 10000 ms later. -/
theorem wifiLost_first_attempt_immediate_witness :
    (wifiLostTick false 50010 (changeState STATE_WIFI_LOST 50000 baseSys)).2 = true
    ∧ (wifiLostTick false 50010 (changeState STATE_WIFI_LOST 50000 baseSys)).1.reconnectInterval
        = 10000
    ∧ (wifiLostTick false 60010
        (wifiLostTick false 50010 (changeState STATE_WIFI_LOST 50000 baseSys)).1).2 = true :=
  ⟨(wifiLost_first_attempt_immediate baseSys 50000 50010 60010 (by decide) (by decide)).2.1,
   (wifiLost_first_attempt_immediate baseSys 50000 50010 60010 (by decide)
      (by decide)).2.2.2.2.1,
   (wifiLost_first_attempt_immediate baseSys 50000 50010 60010 (by decide)
      (by decide)).2.2.2.2.2.2 (by decide)⟩

end NtpClock
